import Mathlib

/-!
# cfssl-sidekick: a shallow embedding of the certificate rotation controller

This development embeds the acquisition/rotation control loop of the
cfssl-sidekick service (src/controller.go, src/main.go) in Lean 4 and proves
the specified properties of the response handler, the signing client and the
rotation loop.

Modelling conventions:
  - Filesystem and process effects are represented as an explicit trace of
    `Event`s returned alongside each function's result.
  - Outcomes that in Go come from the outside world (an `os.OpenFile` error,
    a `WriteString` error, whether `cmd.Start` succeeded, whether the reload
    deadline timer fires before `cmd.Wait` returns) are supplied by an
    explicit environment record, so each function stays a pure function of
    its inputs.
  - A Go runtime panic (out-of-range slice index, nil pointer dereference)
    is the `HandleResult.crash` outcome; it is distinct from an error return.
  - Durations are in nanoseconds, as in Go's `time.Duration`.
-/

namespace CfsslSidekick

/-- One entry of the `errors` list in a cfssl signing response
(`{code:int, message:string}`). -/
structure ResponseError where
  code : Int
  message : String
deriving Repr, DecidableEq

/-- The `bundle` object inside a signing response result. -/
structure ResponseBundle where
  bundle : String
deriving Repr, DecidableEq

/-- The `result` object of a signing response: the leaf certificate PEM text
and an optional bundle (empty string when absent). -/
structure SigningResult where
  certificate : String
  bundle : ResponseBundle
deriving Repr, DecidableEq

/-- The decoded cfssl signing response:
`{success: bool, result: {...}, errors: [...]}`. -/
structure SigningResponse where
  success : Bool
  result : SigningResult
  errors : List ResponseError
deriving Repr, DecidableEq

/-- The plain signing request envelope `{certificate_request, profile, bundle}`. -/
structure SigningRequest where
  certificateRequest : String
  profile : String
  bundle : Bool
deriving Repr, DecidableEq

/-- The token-wrapped envelope `{token, request}` used on the authenticated path. -/
structure AuthSigningRequest where
  token : String
  request : SigningRequest
deriving Repr, DecidableEq

/-- The controller configuration, immutable for the process lifetime
(populated from flags in src/main.go). -/
structure Config where
  certsDir : String
  country : String
  domains : List String
  endpointProfile : String
  endpointToken : String
  endpointURL : String
  execCommand : String
  expiry : Nat
  locality : String
  onetime : Bool
  organization : String
  province : String
  size : Nat
  timeout : Nat
  tlsCAFilename : String
  tlsCertificateFilename : String
  tlsPrivateKeyFilename : String
  verbose : Bool
deriving Repr, DecidableEq

/-- Modelled from the spec: `Config.CertificateFile` is declared in a source
file of this repository not present under src/; spec section 6 says the
certificate filename is joined to the configured output directory. -/
def Config.CertificateFile (c : Config) : String :=
  c.certsDir ++ "/" ++ c.tlsCertificateFilename

/-- Modelled from the spec: `Config.PrivateKeyFile` is declared in a source
file of this repository not present under src/; spec section 6 says the
private-key filename is joined to the configured output directory. -/
def Config.PrivateKeyFile (c : Config) : String :=
  c.certsDir ++ "/" ++ c.tlsPrivateKeyFilename

/-- Modelled from the spec: `Config.CAFile` is declared in a source file of
this repository not present under src/; spec section 6 says the CA-bundle
filename is joined to the configured output directory. -/
def Config.CAFile (c : Config) : String :=
  c.certsDir ++ "/" ++ c.tlsCAFilename

/-- The flags the handler passes to `os.OpenFile`
(`os.O_CREATE|os.O_TRUNC|os.O_RDWR`, src/controller.go line 157). -/
def goOpenFlags : List String := ["O_CREATE", "O_TRUNC", "O_RDWR"]

/-- `5 * time.Second` in nanoseconds: the fixed retry backoff of the loop. -/
def fiveSeconds : Nat := 5000000000

/-- Observable effects of the controller, in program order. -/
inductive Event where
  | mkdirAll (path : String) (mode : Nat)
  | generateKey (size : Nat)
  | encodeCSR (encoded : String)
  | httpPost (url : String) (body : String)
  | openFile (path : String) (flags : List String) (mode : Nat)
  | writeFile (path : String) (content : String)
  | closeFile (path : String)
  | execStart (cmd : String) (args : List String)
  | killProcess
  | signalDone
  | sleep (ns : Nat)
  | exitProcess (code : Nat)
deriving Repr, DecidableEq

/-- The outcome of `handleCertificateResponse`: a normal return (`ok`), an
error return (`err`), or a Go runtime panic (`crash`). -/
inductive HandleResult where
  | ok
  | err (msg : String)
  | crash (msg : String)
deriving Repr, DecidableEq

/-- Environment of one `handleCertificateResponse` call: the outcomes of the
filesystem calls and of the reload-hook child process, which in Go come from
the operating system. -/
structure HandlerEnv where
  /-- The error returned by `os.OpenFile`, if any. -/
  openErr : Option String
  /-- The error returned by `file.WriteString`, if any. -/
  writeErr : Option String
  /-- Whether `cmd.Start()` succeeded; the code discards its error result. -/
  startOk : Bool
  /-- Whether the `time.AfterFunc` deadline fires before `cmd.Wait` returns
  and the timer is stopped. -/
  timerFires : Bool
  /-- The error returned by `cmd.Wait` (non-zero exit, kill, not-started), if
  any; the code only logs it. -/
  waitErr : Option String
deriving Repr, DecidableEq

/-- Embedding of the reload-hook invocation inside `handleCertificateResponse`
(src/controller.go lines 168-189): start the external command, arm a deadline
timer that kills `cmd.Process` when it fires, wait, stop the timer, and log
(never return) any wait error.  When `cmd.Start` failed its error was
discarded and `cmd.Process` is nil, so a firing timer dereferences a nil
pointer. -/
def runExecCommand (c : Config) (env : HandlerEnv) : HandleResult × List Event :=
  let startEv := Event.execStart c.execCommand
    [c.CertificateFile, c.PrivateKeyFile, c.CAFile]
  if env.timerFires then
    if env.startOk then
      (HandleResult.ok, [startEv, Event.killProcess])
    else
      (HandleResult.crash "nil process handle", [startEv])
  else
    (HandleResult.ok, [startEv])

/-- Embedding of `handleCertificateResponse` (src/controller.go lines
137-192): reject an unsuccessful response surfacing `Errors[0].Message`
(a panic when the list is empty), reject an empty certificate, write the
bundle text when present and otherwise the bare certificate to the
certificate file opened with `O_CREATE|O_TRUNC|O_RDWR` mode 0600 (closed by
`defer` on every return path), then, when configured, run the reload hook. -/
def handleCertificateResponse (c : Config) (env : HandlerEnv)
    (response : SigningResponse) : HandleResult × List Event :=
  if !response.success then
    match response.errors with
    | [] => (HandleResult.crash "index out of range", [])
    | e :: _ =>
      (HandleResult.err ("unsuccessful operation, errors: " ++ e.message), [])
  else if response.result.certificate = "" then
    (HandleResult.err "no certificate found in the response", [])
  else
    let content :=
      if response.result.bundle.bundle ≠ "" then response.result.bundle.bundle
      else response.result.certificate
    let path := c.CertificateFile
    let openEv := Event.openFile path goOpenFlags 0o600
    match env.openErr with
    | some msg => (HandleResult.err msg, [openEv])
    | none =>
      match env.writeErr with
      | some msg => (HandleResult.err msg, [openEv, Event.closeFile path])
      | none =>
        let written := [openEv, Event.writeFile path content]
        if c.execCommand ≠ "" then
          let r := runExecCommand c env
          match r.1 with
          | HandleResult.crash m => (HandleResult.crash m, written ++ r.2)
          | res => (res, written ++ r.2 ++ [Event.closeFile path])
        else
          (HandleResult.ok, written ++ [Event.closeFile path])

/-- A JSON string literal (quoting as Go's `json.Marshal` does for the plain
strings exchanged here). -/
def jsonStr (s : String) : String := "\"" ++ s ++ "\""

/-- Modelled from the spec: the JSON field names of the plain envelope come
from struct tags in a source file not present under src/; spec section 6 gives
the body as `\x7bcertificate_request, profile, bundle\x7d`. -/
def SigningRequest.toJson (r : SigningRequest) : String :=
  "\x7b\"certificate_request\":" ++ jsonStr r.certificateRequest ++
    ",\"profile\":" ++ jsonStr r.profile ++
    ",\"bundle\":" ++ (if r.bundle then "true" else "false") ++ "\x7d"

/-- Modelled from the spec: the JSON field names of the token-wrapped envelope
come from struct tags in a source file not present under src/; spec section 6
gives the body as `\x7btoken, request: \x7b...\x7d\x7d`. -/
def AuthSigningRequest.toJson (a : AuthSigningRequest) : String :=
  "\x7b\"token\":" ++ jsonStr a.token ++
    ",\"request\":" ++ a.request.toJson ++ "\x7d"

/-- A single HTTP exchange as the signing client constructs it. -/
structure HttpRequest where
  method : String
  url : String
  body : String
deriving Repr, DecidableEq

/-- Embedding of the request-construction part of `doSigningRequest`
(src/controller.go lines 195-221): choose the authenticated path and the
token-wrapped envelope exactly when a token is configured, marshal the body
to JSON, and build a single POST. -/
def doSigningRequestHttp (c : Config) (request : SigningRequest) : HttpRequest :=
  let auth := c.endpointToken ≠ ""
  if auth then
    ⟨"POST", c.endpointURL ++ "/api/v1/cfssl/authsign",
      (AuthSigningRequest.mk c.endpointToken request).toJson⟩
  else
    ⟨"POST", c.endpointURL ++ "/api/v1/cfssl/sign", request.toJson⟩

/-- The outcome of one signing exchange as seen by the rotation loop: either
`doSigningRequest` returned an error (transport failure, unreadable body,
malformed JSON) or it decoded a `SigningResponse`. -/
inductive SignOutcome where
  | transportErr (msg : String)
  | ok (resp : SigningResponse)
deriving Repr, DecidableEq

/-- The environment of one iteration of the rotation loop: the signing
exchange's outcome and the response handler's environment. -/
structure Attempt where
  sign : SignOutcome
  env : HandlerEnv
deriving Repr, DecidableEq

/-- How one loop iteration ends. -/
inductive StepKind where
  /-- A per-attempt failure: sleep 5 seconds and `continue`. -/
  | retry
  /-- One-shot success: `os.Exit(0)`. -/
  | exited (code : Nat)
  /-- Continuous-mode success: sleep the rotation interval and loop. -/
  | sleeping
  /-- A Go runtime panic ended the process. -/
  | crashed (msg : String)
deriving Repr, DecidableEq

/-- Embedding of one iteration of the `for` loop in `run` (src/controller.go
lines 82-133): POST the signing request built from the once-encoded CSR; on a
signing error sleep 5 seconds and retry; otherwise run the response handler,
on its error sleep 5 seconds and retry; on success signal the watchdog, then
either exit 0 (one-shot mode) or sleep the rotation interval. -/
def runAttempt (c : Config) (encoded : String) (a : Attempt) :
    StepKind × List Event :=
  let req : SigningRequest := ⟨encoded, c.endpointProfile, true⟩
  let http := doSigningRequestHttp c req
  let post := Event.httpPost http.url http.body
  match a.sign with
  | SignOutcome.transportErr _ => (StepKind.retry, [post, Event.sleep fiveSeconds])
  | SignOutcome.ok resp =>
    let r := handleCertificateResponse c a.env resp
    match r.1 with
    | HandleResult.err _ =>
      (StepKind.retry, post :: r.2 ++ [Event.sleep fiveSeconds])
    | HandleResult.crash m => (StepKind.crashed m, post :: r.2)
    | HandleResult.ok =>
      if c.onetime then
        (StepKind.exited 0, post :: r.2 ++ [Event.signalDone, Event.exitProcess 0])
      else
        (StepKind.sleeping, post :: r.2 ++ [Event.signalDone, Event.sleep c.expiry])

/-- How a (fuel-bounded) run of the loop ends.  The Go loop itself never
returns; `outOfAttempts` marks the exhaustion of the supplied environment
list with the loop still running. -/
inductive LoopResult where
  | outOfAttempts
  | exited (code : Nat)
  | crashed (msg : String)
  | startupErr (msg : String)
deriving Repr, DecidableEq

/-- The rotation loop over a finite list of per-iteration environments:
iterations that retry or sleep continue with the rest of the list, an exit or
a panic ends the run. -/
def runLoop (c : Config) (encoded : String) :
    List Attempt → List Event × LoopResult
  | [] => ([], LoopResult.outOfAttempts)
  | a :: rest =>
    let s := runAttempt c encoded a
    match s.1 with
    | StepKind.retry =>
      let t := runLoop c encoded rest
      (s.2 ++ t.1, t.2)
    | StepKind.sleeping =>
      let t := runLoop c encoded rest
      (s.2 ++ t.1, t.2)
    | StepKind.exited n => (s.2, LoopResult.exited n)
    | StepKind.crashed m => (s.2, LoopResult.crashed m)

/-- The start-up environment of `run`: the outcomes of directory creation,
CSR construction and CSR encoding, the PEM text the encoder produced, and the
per-iteration environments of the loop. -/
structure RunEnv where
  mkdirErr : Option String
  csrErr : Option String
  encodeErr : Option String
  encoded : String
  attempts : List Attempt
deriving Repr, DecidableEq

/-- Embedding of `run` (src/controller.go lines 61-134): ensure the
certificate directory (mode 0770), build the key and CSR once
(`createCertificateRequest`), encode the CSR once
(`encodeCertificateRequest`), then enter the rotation loop; each start-up
failure returns before the loop.  The builder and encoder live in a source
file not present under src/, so their outcome and the produced PEM text are
supplied by the environment; `run` calls them exactly once, as the source
shows. -/
def run (c : Config) (env : RunEnv) : List Event × LoopResult :=
  match env.mkdirErr with
  | some m =>
    ([], LoopResult.startupErr ("failed to ensure certficate directory: " ++ m))
  | none =>
    let ev0 := [Event.mkdirAll c.certsDir 0o770]
    match env.csrErr with
    | some m => (ev0, LoopResult.startupErr ("failed to generate csr: " ++ m))
    | none =>
      let ev1 := ev0 ++ [Event.generateKey c.size]
      match env.encodeErr with
      | some m => (ev1, LoopResult.startupErr ("failed to encode csr: " ++ m))
      | none =>
        let ev2 := ev1 ++ [Event.encodeCSR env.encoded]
        let t := runLoop c env.encoded env.attempts
        (ev2 ++ t.1, t.2)

/-- Is this event a write of file content? -/
def isWriteEvent : Event → Bool
  | Event.writeFile _ _ => true
  | _ => false

/-- Is this event a sleep? -/
def isSleepEvent : Event → Bool
  | Event.sleep _ => true
  | _ => false

/-- Is this event a process exit? -/
def isExitEvent : Event → Bool
  | Event.exitProcess _ => true
  | _ => false

/-- Is this event part of building the key material / encoded CSR? -/
def isKeyBuildEvent : Event → Bool
  | Event.generateKey _ => true
  | Event.encodeCSR _ => true
  | _ => false

/-- Is this event an HTTP POST? -/
def isHttpPostEvent : Event → Bool
  | Event.httpPost _ _ => true
  | _ => false

/-- The body of an event, when it is an HTTP POST. -/
def postBody : Event → Option String
  | Event.httpPost _ b => some b
  | _ => none

/-- The bodies of the HTTP POSTs of a trace, in order. -/
def postBodies (t : List Event) : List String := t.filterMap postBody

/-- Did the handler end in a Go runtime panic? -/
def HandleResult.isCrash : HandleResult → Bool
  | HandleResult.crash _ => true
  | _ => false

/-- Whether a loop iteration fails transiently: the signing exchange errored,
or the response handler returned an error. -/
def Attempt.transient (c : Config) (a : Attempt) : Bool :=
  match a.sign with
  | SignOutcome.transportErr _ => true
  | SignOutcome.ok resp =>
    match (handleCertificateResponse c a.env resp).1 with
    | HandleResult.err _ => true
    | _ => false

/-- Is this event one of the handler's own effects: a file operation or a
child-process operation? -/
def isHandlerEvent : Event → Bool
  | Event.openFile _ _ _ => true
  | Event.writeFile _ _ => true
  | Event.closeFile _ => true
  | Event.execStart _ _ => true
  | Event.killProcess => true
  | _ => false

/-- Every event a `handleCertificateResponse` call emits is a file or
child-process operation. -/
theorem handler_trace_all (c : Config) (env : HandlerEnv)
    (resp : SigningResponse) :
    ((handleCertificateResponse c env resp).2).all isHandlerEvent = true := by
  rcases env with ⟨oerr, werr, sok, tf, we⟩
  rcases resp with ⟨succ, ⟨cert, ⟨bund⟩⟩, errs⟩
  cases succ
  · cases errs <;> rfl
  · by_cases hc : cert = "" <;>
      cases oerr <;> cases werr <;>
      by_cases hcmd : c.execCommand = "" <;> cases tf <;> cases sok <;>
      simp [handleCertificateResponse, runExecCommand, hc, hcmd, isHandlerEvent]

/-- Every event a `handleCertificateResponse` call can emit is a file or
child-process operation: never key building, an HTTP POST, a sleep or a
process exit. -/
theorem handler_trace_classes (c : Config) (env : HandlerEnv)
    (resp : SigningResponse) :
    ∀ e ∈ (handleCertificateResponse c env resp).2,
      isKeyBuildEvent e = false ∧ isHttpPostEvent e = false ∧
        isSleepEvent e = false ∧ isExitEvent e = false := by
  intro e he
  have h := handler_trace_all c env resp
  rw [List.all_eq_true] at h
  have he2 := h e he
  cases e <;> simp_all [isHandlerEvent, isKeyBuildEvent, isHttpPostEvent,
    isSleepEvent, isExitEvent]

/-- When the handler returns an error it has not written any content:
every error return happens before (or instead of) the `WriteString` call. -/
theorem handler_err_no_write (c : Config) (env : HandlerEnv)
    (resp : SigningResponse) (m : String)
    (h : (handleCertificateResponse c env resp).1 = HandleResult.err m) :
    ∀ e ∈ (handleCertificateResponse c env resp).2, isWriteEvent e = false := by
  intro e he
  rcases env with ⟨oerr, werr, sok, tf, we⟩
  rcases resp with ⟨succ, ⟨cert, ⟨bund⟩⟩, errs⟩
  cases succ
  · cases errs <;> simp_all [handleCertificateResponse, isWriteEvent]
  · by_cases hc : cert = "" <;>
      cases oerr <;> cases werr <;>
      by_cases hcmd : c.execCommand = "" <;> cases tf <;> cases sok <;>
      simp_all [handleCertificateResponse, runExecCommand, hc, hcmd, isWriteEvent] <;>
      rcases he with he | he <;> subst he <;> rfl

/-- C1: provided the filesystem calls succeed and a failed response carries
at least one error entry (the unguarded `Errors[0]` access needs it, see C9),
`handleCertificateResponse` returns an error and writes no file content
exactly when the response's success flag is false or its certificate field is
empty; on an unsuccessful response the returned error carries the first
error entry's message, and in all other cases the handler writes the
certificate file. -/
theorem handle_rejects_iff_unsuccessful_or_empty (c : Config) (env : HandlerEnv)
    (resp : SigningResponse)
    (herr : resp.success = false → resp.errors ≠ [])
    (hopen : env.openErr = none) (hwrite : env.writeErr = none) :
    (((∃ m, (handleCertificateResponse c env resp).1 = HandleResult.err m) ∧
        ∀ e ∈ (handleCertificateResponse c env resp).2, isWriteEvent e = false) ↔
      (resp.success = false ∨ resp.result.certificate = "")) ∧
    (∀ e rest, resp.errors = e :: rest → resp.success = false →
      (handleCertificateResponse c env resp).1 =
        HandleResult.err ("unsuccessful operation, errors: " ++ e.message)) ∧
    (resp.success = true → resp.result.certificate ≠ "" →
      ∃ s, Event.writeFile c.CertificateFile s ∈
        (handleCertificateResponse c env resp).2) := by
  rcases env with ⟨oerr, werr, sok, tf, we⟩
  rcases resp with ⟨succ, ⟨cert, ⟨bund⟩⟩, errs⟩
  simp only at herr hopen hwrite ⊢
  subst hopen; subst hwrite
  cases succ
  · rcases errs with _ | ⟨e0, rest0⟩
    · exact absurd rfl (herr rfl)
    · refine ⟨?_, ?_, ?_⟩
      · constructor
        · intro _; exact Or.inl rfl
        · intro _
          exact ⟨⟨"unsuccessful operation, errors: " ++ e0.message,
            by simp [handleCertificateResponse]⟩,
            by simp [handleCertificateResponse]⟩
      · rintro e rest h -
        injection h with h1 h2
        subst h1
        simp [handleCertificateResponse]
      · intro h; cases h
  · refine ⟨?_, ?_, ?_⟩
    · constructor
      · rintro ⟨⟨m, hm⟩, hw⟩
        right
        by_cases hc : cert = ""
        · exact hc
        · exfalso
          by_cases hcmd : c.execCommand = "" <;> cases tf <;> cases sok <;>
            simp_all [handleCertificateResponse, runExecCommand]
      · rintro (h | h)
        · cases h
        · subst h
          exact ⟨⟨"no certificate found in the response",
            by simp [handleCertificateResponse]⟩,
            by simp [handleCertificateResponse]⟩
    · rintro e rest - h; cases h
    · rintro - hc
      refine ⟨if bund ≠ "" then bund else cert, ?_⟩
      by_cases hcmd : c.execCommand = "" <;> cases tf <;> cases sok <;>
        simp_all [handleCertificateResponse, runExecCommand]

/-- C9: on a response with a false success flag the handler's access to
`Errors[0]` is unguarded — with an empty errors list it is an out-of-range
panic; only with at least one error entry does the branch return an error
normally. -/
theorem errors_head_access_unguarded (c : Config) (env : HandlerEnv)
    (resp : SigningResponse) (hf : resp.success = false) :
    (resp.errors = [] →
      (handleCertificateResponse c env resp).1 =
        HandleResult.crash "index out of range") ∧
    (∀ e rest, resp.errors = e :: rest →
      (handleCertificateResponse c env resp).1 =
        HandleResult.err ("unsuccessful operation, errors: " ++ e.message)) := by
  rcases resp with ⟨succ, ⟨cert, ⟨bund⟩⟩, errs⟩
  simp only at hf
  subst hf
  constructor
  · intro h
    simp only at h
    subst h
    simp [handleCertificateResponse]
  · rintro e rest h
    simp only at h
    subst h
    simp [handleCertificateResponse]

/-- C4: on a successful response with a non-empty certificate, the content
written to the certificate output path is the bundle text when the bundle
field is non-empty and the bare leaf certificate text when it is empty. -/
theorem written_content_bundle_or_certificate (c : Config) (env : HandlerEnv)
    (resp : SigningResponse) (hs : resp.success = true)
    (hc : resp.result.certificate ≠ "") (hopen : env.openErr = none)
    (hwrite : env.writeErr = none) :
    (resp.result.bundle.bundle ≠ "" →
      Event.writeFile c.CertificateFile resp.result.bundle.bundle ∈
        (handleCertificateResponse c env resp).2) ∧
    (resp.result.bundle.bundle = "" →
      Event.writeFile c.CertificateFile resp.result.certificate ∈
        (handleCertificateResponse c env resp).2) := by
  rcases env with ⟨oerr, werr, sok, tf, we⟩
  rcases resp with ⟨succ, ⟨cert, ⟨bund⟩⟩, errs⟩
  simp only at hs hc hopen hwrite ⊢
  subst hs; subst hopen; subst hwrite
  constructor
  · intro hb
    by_cases hcmd : c.execCommand = "" <;> cases tf <;> cases sok <;>
      simp_all [handleCertificateResponse, runExecCommand]
  · intro hb
    subst hb
    by_cases hcmd : c.execCommand = "" <;> cases tf <;> cases sok <;>
      simp_all [handleCertificateResponse, runExecCommand]

/-- C8: whenever the handler opens the certificate file (and `os.OpenFile`
reported no error), the open is a create-or-truncate with owner read/write
mode 0600 on the certificate output path, and on every (non-panicking) exit
path the deferred close of that handle appears in the trace. -/
theorem open_mode_0600_and_always_closed (c : Config) (env : HandlerEnv)
    (resp : SigningResponse) (p : String) (fl : List String) (m : Nat)
    (hopen : env.openErr = none)
    (hmem : Event.openFile p fl m ∈ (handleCertificateResponse c env resp).2)
    (hnc : ((handleCertificateResponse c env resp).1).isCrash = false) :
    fl = goOpenFlags ∧ m = 0o600 ∧ p = c.CertificateFile ∧
      Event.closeFile p ∈ (handleCertificateResponse c env resp).2 := by
  rcases env with ⟨oerr, werr, sok, tf, we⟩
  rcases resp with ⟨succ, ⟨cert, ⟨bund⟩⟩, errs⟩
  simp only at hopen
  subst hopen
  cases succ
  · rcases errs with _ | ⟨e0, rest0⟩ <;>
      simp_all [handleCertificateResponse]
  · by_cases hc : cert = ""
    · simp_all [handleCertificateResponse]
    · cases werr <;>
        by_cases hcmd : c.execCommand = "" <;> cases tf <;> cases sok <;>
        simp_all [handleCertificateResponse, runExecCommand,
          HandleResult.isCrash]

/-- C10: when a reload command is configured and the deadline timer fires,
the kill path is safe only if `cmd.Start` succeeded (its error result was
discarded): with a failed start the timer's kill dereferences the nil
process handle of the never-started command (a panic), while with a
successful start the kill is performed and the handler still returns
normally. -/
theorem kill_path_requires_started (c : Config) (env : HandlerEnv)
    (resp : SigningResponse) (hs : resp.success = true)
    (hc : resp.result.certificate ≠ "") (hopen : env.openErr = none)
    (hwrite : env.writeErr = none) (hcmd : c.execCommand ≠ "")
    (htimer : env.timerFires = true) :
    (env.startOk = false →
      (handleCertificateResponse c env resp).1 =
        HandleResult.crash "nil process handle") ∧
    (env.startOk = true →
      (handleCertificateResponse c env resp).1 = HandleResult.ok ∧
        Event.killProcess ∈ (handleCertificateResponse c env resp).2) := by
  rcases env with ⟨oerr, werr, sok, tf, we⟩
  rcases resp with ⟨succ, ⟨cert, ⟨bund⟩⟩, errs⟩
  simp only at hs hc hopen hwrite htimer ⊢
  subst hs; subst hopen; subst hwrite; subst htimer
  constructor
  · intro h0
    subst h0
    simp [handleCertificateResponse, runExecCommand, hc, hcmd]
  · intro h1
    subst h1
    constructor <;>
      simp [handleCertificateResponse, runExecCommand, hc, hcmd]

/-- C5: when a reload command is configured and it starts, the certificate
write (and the open before it) precedes the command invocation in the
handler's trace, and the handler returns normally whatever `cmd.Wait`
reported (non-zero exit, forced kill on a fired deadline): a reload failure
is logged, not propagated, so in continuous mode the loop proceeds to sleep
the normal rotation interval. -/
theorem write_precedes_reload_and_reload_failure_nonfatal (c : Config)
    (env : HandlerEnv) (resp : SigningResponse) (encoded : String)
    (hs : resp.success = true) (hc : resp.result.certificate ≠ "")
    (hopen : env.openErr = none) (hwrite : env.writeErr = none)
    (hcmd : c.execCommand ≠ "") (hstart : env.startOk = true) :
    (handleCertificateResponse c env resp).1 = HandleResult.ok ∧
    (∃ content post,
      (handleCertificateResponse c env resp).2 =
        Event.openFile c.CertificateFile goOpenFlags 0o600 ::
          Event.writeFile c.CertificateFile content ::
            Event.execStart c.execCommand
              [c.CertificateFile, c.PrivateKeyFile, c.CAFile] :: post) ∧
    (c.onetime = false →
      (runAttempt c encoded ⟨SignOutcome.ok resp, env⟩).1 = StepKind.sleeping ∧
      Event.sleep c.expiry ∈ (runAttempt c encoded ⟨SignOutcome.ok resp, env⟩).2) := by
  rcases env with ⟨oerr, werr, sok, tf, we⟩
  simp only at hopen hwrite hstart ⊢
  subst hopen; subst hwrite; subst hstart
  have hk : (handleCertificateResponse c
      ⟨none, none, true, tf, we⟩ resp).1 = HandleResult.ok := by
    rcases resp with ⟨succ, ⟨cert, ⟨bund⟩⟩, errs⟩
    simp only at hs hc
    subst hs
    cases tf <;> simp [handleCertificateResponse, runExecCommand, hc, hcmd]
  refine ⟨hk, ?_, ?_⟩
  · rcases resp with ⟨succ, ⟨cert, ⟨bund⟩⟩, errs⟩
    simp only at hs hc
    subst hs
    refine ⟨if bund ≠ "" then bund else cert, ?_⟩
    cases tf <;>
      simp [handleCertificateResponse, runExecCommand, hc, hcmd]
  · intro hone
    constructor
    · simp [runAttempt, hk, hone]
    · simp [runAttempt, hk, hone]

/-- C7: the signing client targets `{endpoint}/api/v1/cfssl/authsign` with
the token-wrapped envelope exactly when a bearer token is configured, and
`{endpoint}/api/v1/cfssl/sign` with the plain envelope otherwise; either way
the body is the envelope's JSON serialization and the exchange is a single
POST. -/
theorem signing_request_path_and_envelope (c : Config) (req : SigningRequest) :
    (doSigningRequestHttp c req).method = "POST" ∧
    (c.endpointToken ≠ "" →
      (doSigningRequestHttp c req).url =
        c.endpointURL ++ "/api/v1/cfssl/authsign" ∧
      (doSigningRequestHttp c req).body =
        (AuthSigningRequest.mk c.endpointToken req).toJson) ∧
    (c.endpointToken = "" →
      (doSigningRequestHttp c req).url =
        c.endpointURL ++ "/api/v1/cfssl/sign" ∧
      (doSigningRequestHttp c req).body = req.toJson) := by
  by_cases h : c.endpointToken = "" <;> simp [doSigningRequestHttp, h]

/-- The handler's trace never contains a sleep. -/
theorem handler_trace_filter_sleep (c : Config) (env : HandlerEnv)
    (resp : SigningResponse) :
    (handleCertificateResponse c env resp).2.filter isSleepEvent = [] := by
  rw [List.filter_eq_nil_iff]
  intro e he
  simp [(handler_trace_classes c env resp e he).2.2.1]

/-- An event that is not an HTTP POST contributes no body. -/
theorem postBody_eq_none (e : Event) (h : isHttpPostEvent e = false) :
    postBody e = none := by
  cases e <;> simp_all [postBody, isHttpPostEvent]

/-- The handler's trace contains no HTTP POST bodies. -/
theorem handler_trace_postBodies (c : Config) (env : HandlerEnv)
    (resp : SigningResponse) :
    postBodies (handleCertificateResponse c env resp).2 = [] := by
  rw [postBodies, List.filterMap_eq_nil_iff]
  intro e he
  exact postBody_eq_none e (handler_trace_classes c env resp e he).2.1

/-- A transiently failing iteration retries after exactly one 5-second
sleep and emits neither a file write nor a process exit. -/
theorem runAttempt_transient_retry (c : Config) (encoded : String)
    (a : Attempt) (h : a.transient c = true) :
    (runAttempt c encoded a).1 = StepKind.retry ∧
    (runAttempt c encoded a).2.filter isSleepEvent =
      [Event.sleep fiveSeconds] ∧
    ∀ e ∈ (runAttempt c encoded a).2,
      isWriteEvent e = false ∧ isExitEvent e = false := by
  rcases a with ⟨sign, env⟩
  cases sign with
  | transportErr m =>
    refine ⟨rfl, rfl, ?_⟩
    intro e he
    simp [runAttempt] at he
    rcases he with he | he <;> subst he <;>
      simp [isWriteEvent, isExitEvent]
  | ok resp =>
    rcases hr : (handleCertificateResponse c env resp).1 with _ | m | m
    · simp [Attempt.transient, hr] at h
    · have hnw := handler_err_no_write c env resp m hr
      have hcl := handler_trace_classes c env resp
      refine ⟨?_, ?_, ?_⟩
      · simp [runAttempt, hr]
      · simp [runAttempt, hr, List.filter_append,
          handler_trace_filter_sleep, isSleepEvent]
      · intro e he
        simp [runAttempt, hr] at he
        rcases he with he | he | he
        · subst he; simp [isWriteEvent, isExitEvent]
        · exact ⟨hnw e he, (hcl e he).2.2.2⟩
        · subst he; simp [isWriteEvent, isExitEvent]
    · simp [Attempt.transient, hr] at h

/-- C2: as long as every supplied iteration environment fails transiently
(signing-transport failure or a handler error), the loop keeps running:
each failed iteration backs off by exactly one 5-second sleep, writes no
certificate file, performs no process exit — for however many failures the
environment supplies. -/
theorem loop_retries_transient_failures_unbounded (c : Config)
    (encoded : String) (attempts : List Attempt)
    (h : ∀ a ∈ attempts, a.transient c = true) :
    (runLoop c encoded attempts).2 = LoopResult.outOfAttempts ∧
    (runLoop c encoded attempts).1.filter isSleepEvent =
      List.replicate attempts.length (Event.sleep fiveSeconds) ∧
    ∀ e ∈ (runLoop c encoded attempts).1,
      isWriteEvent e = false ∧ isExitEvent e = false := by
  induction attempts with
  | nil => exact ⟨rfl, rfl, by intro e he; simp [runLoop] at he⟩
  | cons a rest ih =>
    have ha := runAttempt_transient_retry c encoded a (h a (by simp))
    have ih2 := ih (fun x hx => h x (by simp [hx]))
    rcases ha with ⟨hk, hf, hew⟩
    refine ⟨?_, ?_, ?_⟩
    · simp [runLoop, hk, ih2.1]
    · simp [runLoop, hk, List.filter_append, hf, ih2.2.1,
        List.replicate_succ]
    · intro e he
      simp [runLoop, hk] at he
      rcases he with he | he
      · exact hew e he
      · exact ih2.2.2 e he

/-- The one signing-request body the loop can send: the JSON of the envelope
built from the once-encoded CSR, the configured profile and `bundle: true`. -/
def canonicalBody (c : Config) (encoded : String) : String :=
  (doSigningRequestHttp c ⟨encoded, c.endpointProfile, true⟩).body

/-- The one POST event a loop iteration emits. -/
def canonicalPost (c : Config) (encoded : String) : Event :=
  Event.httpPost (doSigningRequestHttp c ⟨encoded, c.endpointProfile, true⟩).url
    (doSigningRequestHttp c ⟨encoded, c.endpointProfile, true⟩).body

/-- A trace headed by a POST whose remaining events are not POSTs has that
POST's body as its only body. -/
theorem postBodies_eq_single (u b : String) (t : List Event)
    (ht : ∀ e ∈ t, isHttpPostEvent e = false) :
    postBodies (Event.httpPost u b :: t) = [b] := by
  have hnil : List.filterMap postBody t = [] := by
    rw [List.filterMap_eq_nil_iff]
    intro e he
    exact postBody_eq_none e (ht e he)
  simp only [postBodies, List.filterMap_cons]
  simp [postBody, hnil]

/-- Every loop iteration's trace is its canonical POST followed by events
that are neither POSTs nor key building. -/
theorem runAttempt_trace_shape (c : Config) (encoded : String) (a : Attempt) :
    ∃ t, (runAttempt c encoded a).2 = canonicalPost c encoded :: t ∧
      ∀ e ∈ t, isHttpPostEvent e = false ∧ isKeyBuildEvent e = false := by
  rcases a with ⟨sign, env⟩
  cases sign with
  | transportErr m =>
    refine ⟨[Event.sleep fiveSeconds], rfl, ?_⟩
    intro e he
    simp at he
    subst he
    simp [isHttpPostEvent, isKeyBuildEvent]
  | ok resp =>
    have hcl := handler_trace_classes c env resp
    have tailOk : ∀ tail : List Event,
        (∀ e ∈ tail, isHttpPostEvent e = false ∧ isKeyBuildEvent e = false) →
        ∀ e ∈ (handleCertificateResponse c env resp).2 ++ tail,
          isHttpPostEvent e = false ∧ isKeyBuildEvent e = false := by
      intro tail htail e he
      rcases List.mem_append.mp he with he | he
      · exact ⟨(hcl e he).2.1, (hcl e he).1⟩
      · exact htail e he
    rcases hr : (handleCertificateResponse c env resp).1 with _ | m | m
    · by_cases hone : c.onetime = true
      · refine ⟨(handleCertificateResponse c env resp).2 ++
          [Event.signalDone, Event.exitProcess 0],
          by simp [runAttempt, hr, hone, canonicalPost], tailOk _ ?_⟩
        intro e he
        simp at he
        rcases he with he | he <;> subst he <;>
          simp [isHttpPostEvent, isKeyBuildEvent]
      · rw [Bool.not_eq_true] at hone
        refine ⟨(handleCertificateResponse c env resp).2 ++
          [Event.signalDone, Event.sleep c.expiry],
          by simp [runAttempt, hr, hone, canonicalPost], tailOk _ ?_⟩
        intro e he
        simp at he
        rcases he with he | he <;> subst he <;>
          simp [isHttpPostEvent, isKeyBuildEvent]
    · refine ⟨(handleCertificateResponse c env resp).2 ++
        [Event.sleep fiveSeconds],
        by simp [runAttempt, hr, canonicalPost], tailOk _ ?_⟩
      intro e he
      simp at he
      subst he
      simp [isHttpPostEvent, isKeyBuildEvent]
    · refine ⟨(handleCertificateResponse c env resp).2 ++ [],
        by simp [runAttempt, hr, canonicalPost], tailOk _ ?_⟩
      intro e he
      simp at he

/-- One loop iteration emits no key-building event, and every POST body it
emits is the canonical body built from the once-encoded CSR. -/
theorem runAttempt_no_keybuild_stable_post (c : Config) (encoded : String)
    (a : Attempt) :
    (∀ e ∈ (runAttempt c encoded a).2, isKeyBuildEvent e = false) ∧
    postBodies (runAttempt c encoded a).2 = [canonicalBody c encoded] := by
  obtain ⟨t, ht, hprop⟩ := runAttempt_trace_shape c encoded a
  constructor
  · intro e he
    rw [ht] at he
    rcases List.mem_cons.mp he with he | he
    · subst he
      simp [canonicalPost, isKeyBuildEvent]
    · exact (hprop e he).2
  · rw [ht, canonicalPost,
      postBodies_eq_single _ _ t (fun e he => (hprop e he).1)]
    simp [canonicalBody]

/-- The loop's trace contains no key-building event, and every POST body in
it is the canonical one. -/
theorem runLoop_no_keybuild_stable_posts (c : Config) (encoded : String)
    (attempts : List Attempt) :
    (∀ e ∈ (runLoop c encoded attempts).1, isKeyBuildEvent e = false) ∧
    ∀ b ∈ postBodies (runLoop c encoded attempts).1,
      b = canonicalBody c encoded := by
  induction attempts with
  | nil =>
    exact ⟨by intro e he; simp [runLoop] at he,
      by intro b hb; simp [runLoop, postBodies] at hb⟩
  | cons a rest ih =>
    have ha := runAttempt_no_keybuild_stable_post c encoded a
    have step : ∀ t : List Event,
        (∀ e ∈ t, isKeyBuildEvent e = false) →
        (∀ b ∈ postBodies t, b = canonicalBody c encoded) →
        (∀ e ∈ (runAttempt c encoded a).2 ++ t, isKeyBuildEvent e = false) ∧
        (∀ b ∈ postBodies ((runAttempt c encoded a).2 ++ t),
          b = canonicalBody c encoded) := by
      intro t h1 h2
      constructor
      · intro e he
        rcases List.mem_append.mp he with he | he
        · exact ha.1 e he
        · exact h1 e he
      · intro b hb
        rw [postBodies, List.filterMap_append] at hb
        rcases List.mem_append.mp hb with hb | hb
        · rw [← postBodies, ha.2] at hb
          simpa using hb
        · exact h2 b hb
    rcases hk : (runAttempt c encoded a).1 with _ | n | _ | m
    · have := step (runLoop c encoded rest).1 ih.1 ih.2
      simpa [runLoop, hk] using this
    · constructor
      · intro e he
        simp only [runLoop, hk] at he
        exact ha.1 e he
      · intro b hb
        simp only [runLoop, hk] at hb
        rw [ha.2] at hb
        simpa using hb
    · have := step (runLoop c encoded rest).1 ih.1 ih.2
      simpa [runLoop, hk] using this
    · constructor
      · intro e he
        simp only [runLoop, hk] at he
        exact ha.1 e he
      · intro b hb
        simp only [runLoop, hk] at hb
        rw [ha.2] at hb
        simpa using hb

/-- C3: when start-up succeeds, the run's trace is the one-time key
generation and CSR encoding (after the directory creation), followed by the
loop trace which builds no further key material; every signing POST of the
run carries the canonical body built from the once-encoded CSR, so the
bodies sent on any two rotations are byte-identical. -/
theorem csr_built_once_and_bodies_stable (c : Config) (env : RunEnv)
    (h1 : env.mkdirErr = none) (h2 : env.csrErr = none)
    (h3 : env.encodeErr = none) :
    ∃ loopT,
      (run c env).1 =
        [Event.mkdirAll c.certsDir 0o770, Event.generateKey c.size,
          Event.encodeCSR env.encoded] ++ loopT ∧
      (∀ e ∈ loopT, isKeyBuildEvent e = false) ∧
      (∀ b ∈ postBodies (run c env).1, b = canonicalBody c env.encoded) ∧
      (∀ b1 ∈ postBodies (run c env).1, ∀ b2 ∈ postBodies (run c env).1,
        b1 = b2) := by
  rcases env with ⟨me, ce, ee, encoded, attempts⟩
  simp only at h1 h2 h3 ⊢
  subst h1; subst h2; subst h3
  have hl := runLoop_no_keybuild_stable_posts c encoded attempts
  have htr : (run c ⟨none, none, none, encoded, attempts⟩).1 =
      [Event.mkdirAll c.certsDir 0o770, Event.generateKey c.size,
        Event.encodeCSR encoded] ++ (runLoop c encoded attempts).1 := by
    simp [run]
  have hpb : postBodies (run c ⟨none, none, none, encoded, attempts⟩).1 =
      postBodies (runLoop c encoded attempts).1 := by
    rw [htr]
    simp only [postBodies, List.cons_append, List.nil_append,
      List.filterMap_cons]
    simp [postBody]
  refine ⟨(runLoop c encoded attempts).1, htr, hl.1, ?_, ?_⟩
  · intro b hb
    rw [hpb] at hb
    exact hl.2 b hb
  · intro b1 hb1 b2 hb2
    rw [hpb] at hb1 hb2
    rw [hl.2 b1 hb1, hl.2 b2 hb2]

/-- C6: once an iteration's response handling succeeds, in one-shot mode the
iteration exits the process with status 0 without any sleep (and the loop
run ends as `exited 0` whatever environments remain), while in continuous
mode the iteration performs no exit and sleeps exactly once, for exactly the
configured rotation interval, after which the loop continues with the next
iteration's events. -/
theorem onetime_exits_without_sleep_else_sleeps_expiry (c : Config)
    (encoded : String) (envh : HandlerEnv) (resp : SigningResponse)
    (rest : List Attempt)
    (hok : (handleCertificateResponse c envh resp).1 = HandleResult.ok) :
    (c.onetime = true →
      (runAttempt c encoded ⟨SignOutcome.ok resp, envh⟩).1 =
        StepKind.exited 0 ∧
      (∀ e ∈ (runAttempt c encoded ⟨SignOutcome.ok resp, envh⟩).2,
        isSleepEvent e = false) ∧
      Event.exitProcess 0 ∈
        (runAttempt c encoded ⟨SignOutcome.ok resp, envh⟩).2 ∧
      (runLoop c encoded (⟨SignOutcome.ok resp, envh⟩ :: rest)).2 =
        LoopResult.exited 0) ∧
    (c.onetime = false →
      (runAttempt c encoded ⟨SignOutcome.ok resp, envh⟩).1 =
        StepKind.sleeping ∧
      (runAttempt c encoded ⟨SignOutcome.ok resp, envh⟩).2.filter
        isSleepEvent = [Event.sleep c.expiry] ∧
      (∀ e ∈ (runAttempt c encoded ⟨SignOutcome.ok resp, envh⟩).2,
        isExitEvent e = false) ∧
      (runLoop c encoded (⟨SignOutcome.ok resp, envh⟩ :: rest)).1 =
        (runAttempt c encoded ⟨SignOutcome.ok resp, envh⟩).2 ++
          (runLoop c encoded rest).1) := by
  have hcl := handler_trace_classes c envh resp
  constructor
  · intro hone
    refine ⟨by simp [runAttempt, hok, hone], ?_, ?_, ?_⟩
    · intro e he
      simp [runAttempt, hok, hone] at he
      rcases he with he | he | he | he
      · subst he; simp [isSleepEvent]
      · exact (hcl e he).2.2.1
      · subst he; simp [isSleepEvent]
      · subst he; simp [isSleepEvent]
    · simp [runAttempt, hok, hone]
    · simp [runLoop, runAttempt, hok, hone]
  · intro hone
    refine ⟨by simp [runAttempt, hok, hone], ?_, ?_, ?_⟩
    · simp [runAttempt, hok, hone, List.filter_append,
        handler_trace_filter_sleep, isSleepEvent]
    · intro e he
      simp [runAttempt, hok, hone] at he
      rcases he with he | he | he | he
      · subst he; simp [isExitEvent]
      · exact (hcl e he).2.2.2
      · subst he; simp [isExitEvent]
      · subst he; simp [isExitEvent]
    · have hk : (runAttempt c encoded ⟨SignOutcome.ok resp, envh⟩).1 =
          StepKind.sleeping := by simp [runAttempt, hok, hone]
      simp [runLoop, hk]

/-! Concrete configurations, environments and responses used to instantiate
the theorems above. -/

/-- A concrete configuration with the flag defaults of src/main.go. -/
def sampleConfig : Config :=
  ⟨"/certs", "GB", ["example.com"], "server", "", "https://ca.example", "",
    7776000000000000, "London", false, "Example Org", "London", 2048,
    60000000000, "tls-ca.pem", "tls.pem", "tls-key.pem", false⟩

/-- `sampleConfig` with a reload command configured. -/
def execConfig : Config := { sampleConfig with execCommand := "/bin/reload" }

/-- `sampleConfig` in one-shot mode. -/
def onetimeConfig : Config := { sampleConfig with onetime := true }

/-- `sampleConfig` with a bearer token configured. -/
def tokenConfig : Config := { sampleConfig with endpointToken := "sekret" }

/-- An environment where every external call behaves. -/
def quietEnv : HandlerEnv := ⟨none, none, true, false, none⟩

/-- An environment whose reload hook overruns its deadline and is killed. -/
def killEnv : HandlerEnv := ⟨none, none, true, true, some "signal: killed"⟩

/-- An environment whose reload hook fails to start and whose deadline timer
fires. -/
def badStartEnv : HandlerEnv := ⟨none, none, false, true, some "exec: not started"⟩

/-- A failed signing response carrying one error entry. -/
def respFail : SigningResponse := ⟨false, ⟨"", ⟨""⟩⟩, [⟨7, "policy violation"⟩]⟩

/-- A failed signing response with an empty errors list. -/
def respFailEmpty : SigningResponse := ⟨false, ⟨"", ⟨""⟩⟩, []⟩

/-- A successful signing response with certificate and bundle. -/
def respOk : SigningResponse := ⟨true, ⟨"LEAF", ⟨"LEAF+CHAIN"⟩⟩, []⟩

/-- A successful signing response without a bundle. -/
def respOkNoBundle : SigningResponse := ⟨true, ⟨"LEAF", ⟨""⟩⟩, []⟩

/-- A transiently failing iteration: transport error. -/
def failAttempt1 : Attempt :=
  ⟨SignOutcome.transportErr "connection refused", quietEnv⟩

/-- A transiently failing iteration: unsuccessful response. -/
def failAttempt2 : Attempt := ⟨SignOutcome.ok respFail, quietEnv⟩

/-- A run environment whose start-up succeeds. -/
def sampleRunEnv : RunEnv :=
  ⟨none, none, none, "PEMCSR", [failAttempt1, ⟨SignOutcome.ok respOk, quietEnv⟩]⟩

/-- Witness for C1 at a failed response with one error entry. -/
theorem handle_rejects_iff_witness :
    (respFail.success = false → respFail.errors ≠ []) ∧
    quietEnv.openErr = none ∧ quietEnv.writeErr = none ∧
    ((((∃ m, (handleCertificateResponse sampleConfig quietEnv respFail).1 =
          HandleResult.err m) ∧
        ∀ e ∈ (handleCertificateResponse sampleConfig quietEnv respFail).2,
          isWriteEvent e = false) ↔
      (respFail.success = false ∨ respFail.result.certificate = "")) ∧
     (∀ e rest, respFail.errors = e :: rest → respFail.success = false →
       (handleCertificateResponse sampleConfig quietEnv respFail).1 =
         HandleResult.err ("unsuccessful operation, errors: " ++ e.message)) ∧
     (respFail.success = true → respFail.result.certificate ≠ "" →
       ∃ s, Event.writeFile sampleConfig.CertificateFile s ∈
         (handleCertificateResponse sampleConfig quietEnv respFail).2)) :=
  ⟨by decide, rfl, rfl,
    handle_rejects_iff_unsuccessful_or_empty sampleConfig quietEnv respFail
      (by decide) rfl rfl⟩

/-- Witness for C9 at both a response with an empty errors list and one with
an entry. -/
theorem errors_head_access_witness :
    respFailEmpty.success = false ∧ respFail.success = false ∧
    ((respFailEmpty.errors = [] →
       (handleCertificateResponse sampleConfig quietEnv respFailEmpty).1 =
         HandleResult.crash "index out of range") ∧
     (∀ e rest, respFailEmpty.errors = e :: rest →
       (handleCertificateResponse sampleConfig quietEnv respFailEmpty).1 =
         HandleResult.err ("unsuccessful operation, errors: " ++ e.message))) ∧
    ((respFail.errors = [] →
       (handleCertificateResponse sampleConfig quietEnv respFail).1 =
         HandleResult.crash "index out of range") ∧
     (∀ e rest, respFail.errors = e :: rest →
       (handleCertificateResponse sampleConfig quietEnv respFail).1 =
         HandleResult.err ("unsuccessful operation, errors: " ++ e.message))) :=
  ⟨rfl, rfl,
    errors_head_access_unguarded sampleConfig quietEnv respFailEmpty rfl,
    errors_head_access_unguarded sampleConfig quietEnv respFail rfl⟩

/-- Witness for C4 at a bundled and an unbundled successful response. -/
theorem written_content_witness :
    respOk.success = true ∧ respOk.result.certificate ≠ "" ∧
    respOkNoBundle.success = true ∧ respOkNoBundle.result.certificate ≠ "" ∧
    quietEnv.openErr = none ∧ quietEnv.writeErr = none ∧
    ((respOk.result.bundle.bundle ≠ "" →
       Event.writeFile sampleConfig.CertificateFile respOk.result.bundle.bundle ∈
         (handleCertificateResponse sampleConfig quietEnv respOk).2) ∧
     (respOk.result.bundle.bundle = "" →
       Event.writeFile sampleConfig.CertificateFile respOk.result.certificate ∈
         (handleCertificateResponse sampleConfig quietEnv respOk).2)) ∧
    ((respOkNoBundle.result.bundle.bundle ≠ "" →
       Event.writeFile sampleConfig.CertificateFile
         respOkNoBundle.result.bundle.bundle ∈
         (handleCertificateResponse sampleConfig quietEnv respOkNoBundle).2) ∧
     (respOkNoBundle.result.bundle.bundle = "" →
       Event.writeFile sampleConfig.CertificateFile
         respOkNoBundle.result.certificate ∈
         (handleCertificateResponse sampleConfig quietEnv respOkNoBundle).2)) :=
  ⟨rfl, by decide, rfl, by decide, rfl, rfl,
    written_content_bundle_or_certificate sampleConfig quietEnv respOk rfl
      (by decide) rfl rfl,
    written_content_bundle_or_certificate sampleConfig quietEnv respOkNoBundle
      rfl (by decide) rfl rfl⟩

/-- Witness for C8 at the successful write path. -/
theorem open_mode_witness :
    quietEnv.openErr = none ∧
    Event.openFile sampleConfig.CertificateFile goOpenFlags 0o600 ∈
      (handleCertificateResponse sampleConfig quietEnv respOk).2 ∧
    ((handleCertificateResponse sampleConfig quietEnv respOk).1).isCrash =
      false ∧
    (goOpenFlags = goOpenFlags ∧ (0o600 : Nat) = 0o600 ∧
      sampleConfig.CertificateFile = sampleConfig.CertificateFile ∧
      Event.closeFile sampleConfig.CertificateFile ∈
        (handleCertificateResponse sampleConfig quietEnv respOk).2) :=
  ⟨rfl, by decide, rfl,
    open_mode_0600_and_always_closed sampleConfig quietEnv respOk
      sampleConfig.CertificateFile goOpenFlags 0o600 rfl (by decide) rfl⟩

/-- Witness for C10 at a failed and at a successful reload-hook start, both
with a firing deadline timer. -/
theorem kill_path_witness :
    respOk.success = true ∧ respOk.result.certificate ≠ "" ∧
    badStartEnv.openErr = none ∧ badStartEnv.writeErr = none ∧
    execConfig.execCommand ≠ "" ∧ badStartEnv.timerFires = true ∧
    killEnv.timerFires = true ∧
    ((badStartEnv.startOk = false →
       (handleCertificateResponse execConfig badStartEnv respOk).1 =
         HandleResult.crash "nil process handle") ∧
     (badStartEnv.startOk = true →
       (handleCertificateResponse execConfig badStartEnv respOk).1 =
         HandleResult.ok ∧
       Event.killProcess ∈
         (handleCertificateResponse execConfig badStartEnv respOk).2)) ∧
    ((killEnv.startOk = false →
       (handleCertificateResponse execConfig killEnv respOk).1 =
         HandleResult.crash "nil process handle") ∧
     (killEnv.startOk = true →
       (handleCertificateResponse execConfig killEnv respOk).1 =
         HandleResult.ok ∧
       Event.killProcess ∈
         (handleCertificateResponse execConfig killEnv respOk).2)) :=
  ⟨rfl, by decide, rfl, rfl, by decide, rfl, rfl,
    kill_path_requires_started execConfig badStartEnv respOk rfl (by decide)
      rfl rfl (by decide) rfl,
    kill_path_requires_started execConfig killEnv respOk rfl (by decide)
      rfl rfl (by decide) rfl⟩

/-- Witness for C5 at a reload hook that is killed on its deadline. -/
theorem write_precedes_reload_witness :
    respOk.success = true ∧ respOk.result.certificate ≠ "" ∧
    killEnv.openErr = none ∧ killEnv.writeErr = none ∧
    execConfig.execCommand ≠ "" ∧ killEnv.startOk = true ∧
    ((handleCertificateResponse execConfig killEnv respOk).1 =
      HandleResult.ok ∧
     (∃ content post,
       (handleCertificateResponse execConfig killEnv respOk).2 =
         Event.openFile execConfig.CertificateFile goOpenFlags 0o600 ::
           Event.writeFile execConfig.CertificateFile content ::
             Event.execStart execConfig.execCommand
               [execConfig.CertificateFile, execConfig.PrivateKeyFile,
                 execConfig.CAFile] :: post) ∧
     (execConfig.onetime = false →
       (runAttempt execConfig "PEMCSR" ⟨SignOutcome.ok respOk, killEnv⟩).1 =
         StepKind.sleeping ∧
       Event.sleep execConfig.expiry ∈
         (runAttempt execConfig "PEMCSR" ⟨SignOutcome.ok respOk, killEnv⟩).2)) :=
  ⟨rfl, by decide, rfl, rfl, by decide, rfl,
    write_precedes_reload_and_reload_failure_nonfatal execConfig killEnv respOk
      "PEMCSR" rfl (by decide) rfl rfl (by decide) rfl⟩

/-- Witness for C7 with and without a configured token. -/
theorem signing_request_path_witness :
    ((doSigningRequestHttp tokenConfig ⟨"PEMCSR", "server", true⟩).method =
        "POST" ∧
     (tokenConfig.endpointToken ≠ "" →
       (doSigningRequestHttp tokenConfig ⟨"PEMCSR", "server", true⟩).url =
         tokenConfig.endpointURL ++ "/api/v1/cfssl/authsign" ∧
       (doSigningRequestHttp tokenConfig ⟨"PEMCSR", "server", true⟩).body =
         (AuthSigningRequest.mk tokenConfig.endpointToken
           ⟨"PEMCSR", "server", true⟩).toJson) ∧
     (tokenConfig.endpointToken = "" →
       (doSigningRequestHttp tokenConfig ⟨"PEMCSR", "server", true⟩).url =
         tokenConfig.endpointURL ++ "/api/v1/cfssl/sign" ∧
       (doSigningRequestHttp tokenConfig ⟨"PEMCSR", "server", true⟩).body =
         (SigningRequest.mk "PEMCSR" "server" true).toJson)) ∧
    ((doSigningRequestHttp sampleConfig ⟨"PEMCSR", "server", true⟩).method =
        "POST" ∧
     (sampleConfig.endpointToken ≠ "" →
       (doSigningRequestHttp sampleConfig ⟨"PEMCSR", "server", true⟩).url =
         sampleConfig.endpointURL ++ "/api/v1/cfssl/authsign" ∧
       (doSigningRequestHttp sampleConfig ⟨"PEMCSR", "server", true⟩).body =
         (AuthSigningRequest.mk sampleConfig.endpointToken
           ⟨"PEMCSR", "server", true⟩).toJson) ∧
     (sampleConfig.endpointToken = "" →
       (doSigningRequestHttp sampleConfig ⟨"PEMCSR", "server", true⟩).url =
         sampleConfig.endpointURL ++ "/api/v1/cfssl/sign" ∧
       (doSigningRequestHttp sampleConfig ⟨"PEMCSR", "server", true⟩).body =
         (SigningRequest.mk "PEMCSR" "server" true).toJson)) :=
  ⟨signing_request_path_and_envelope tokenConfig ⟨"PEMCSR", "server", true⟩,
    signing_request_path_and_envelope sampleConfig ⟨"PEMCSR", "server", true⟩⟩

/-- Witness for C2 at two consecutive transient failures. -/
theorem loop_retries_witness :
    (∀ a ∈ [failAttempt1, failAttempt2], a.transient sampleConfig = true) ∧
    ((runLoop sampleConfig "PEMCSR" [failAttempt1, failAttempt2]).2 =
       LoopResult.outOfAttempts ∧
     (runLoop sampleConfig "PEMCSR" [failAttempt1, failAttempt2]).1.filter
       isSleepEvent =
       List.replicate ([failAttempt1, failAttempt2] : List Attempt).length
         (Event.sleep fiveSeconds) ∧
     ∀ e ∈ (runLoop sampleConfig "PEMCSR" [failAttempt1, failAttempt2]).1,
       isWriteEvent e = false ∧ isExitEvent e = false) :=
  ⟨by decide,
    loop_retries_transient_failures_unbounded sampleConfig "PEMCSR"
      [failAttempt1, failAttempt2] (by decide)⟩

/-- Witness for C3 at a run whose start-up succeeds. -/
theorem csr_built_once_witness :
    sampleRunEnv.mkdirErr = none ∧ sampleRunEnv.csrErr = none ∧
    sampleRunEnv.encodeErr = none ∧
    (∃ loopT,
      (run sampleConfig sampleRunEnv).1 =
        [Event.mkdirAll sampleConfig.certsDir 0o770,
          Event.generateKey sampleConfig.size,
          Event.encodeCSR sampleRunEnv.encoded] ++ loopT ∧
      (∀ e ∈ loopT, isKeyBuildEvent e = false) ∧
      (∀ b ∈ postBodies (run sampleConfig sampleRunEnv).1,
        b = canonicalBody sampleConfig sampleRunEnv.encoded) ∧
      (∀ b1 ∈ postBodies (run sampleConfig sampleRunEnv).1,
        ∀ b2 ∈ postBodies (run sampleConfig sampleRunEnv).1, b1 = b2)) :=
  ⟨rfl, rfl, rfl,
    csr_built_once_and_bodies_stable sampleConfig sampleRunEnv rfl rfl rfl⟩

/-- Witness for C6 in one-shot and in continuous mode. -/
theorem onetime_exits_witness :
    (handleCertificateResponse onetimeConfig quietEnv respOk).1 =
      HandleResult.ok ∧
    (handleCertificateResponse sampleConfig quietEnv respOk).1 =
      HandleResult.ok ∧
    ((onetimeConfig.onetime = true →
       (runAttempt onetimeConfig "PEMCSR" ⟨SignOutcome.ok respOk, quietEnv⟩).1 =
         StepKind.exited 0 ∧
       (∀ e ∈ (runAttempt onetimeConfig "PEMCSR"
           ⟨SignOutcome.ok respOk, quietEnv⟩).2, isSleepEvent e = false) ∧
       Event.exitProcess 0 ∈
         (runAttempt onetimeConfig "PEMCSR" ⟨SignOutcome.ok respOk, quietEnv⟩).2 ∧
       (runLoop onetimeConfig "PEMCSR"
           (⟨SignOutcome.ok respOk, quietEnv⟩ :: [])).2 = LoopResult.exited 0) ∧
     (onetimeConfig.onetime = false →
       (runAttempt onetimeConfig "PEMCSR" ⟨SignOutcome.ok respOk, quietEnv⟩).1 =
         StepKind.sleeping ∧
       (runAttempt onetimeConfig "PEMCSR"
           ⟨SignOutcome.ok respOk, quietEnv⟩).2.filter isSleepEvent =
         [Event.sleep onetimeConfig.expiry] ∧
       (∀ e ∈ (runAttempt onetimeConfig "PEMCSR"
           ⟨SignOutcome.ok respOk, quietEnv⟩).2, isExitEvent e = false) ∧
       (runLoop onetimeConfig "PEMCSR"
           (⟨SignOutcome.ok respOk, quietEnv⟩ :: [])).1 =
         (runAttempt onetimeConfig "PEMCSR"
           ⟨SignOutcome.ok respOk, quietEnv⟩).2 ++
           (runLoop onetimeConfig "PEMCSR" []).1)) ∧
    ((sampleConfig.onetime = true →
       (runAttempt sampleConfig "PEMCSR" ⟨SignOutcome.ok respOk, quietEnv⟩).1 =
         StepKind.exited 0 ∧
       (∀ e ∈ (runAttempt sampleConfig "PEMCSR"
           ⟨SignOutcome.ok respOk, quietEnv⟩).2, isSleepEvent e = false) ∧
       Event.exitProcess 0 ∈
         (runAttempt sampleConfig "PEMCSR" ⟨SignOutcome.ok respOk, quietEnv⟩).2 ∧
       (runLoop sampleConfig "PEMCSR"
           (⟨SignOutcome.ok respOk, quietEnv⟩ :: [])).2 = LoopResult.exited 0) ∧
     (sampleConfig.onetime = false →
       (runAttempt sampleConfig "PEMCSR" ⟨SignOutcome.ok respOk, quietEnv⟩).1 =
         StepKind.sleeping ∧
       (runAttempt sampleConfig "PEMCSR"
           ⟨SignOutcome.ok respOk, quietEnv⟩).2.filter isSleepEvent =
         [Event.sleep sampleConfig.expiry] ∧
       (∀ e ∈ (runAttempt sampleConfig "PEMCSR"
           ⟨SignOutcome.ok respOk, quietEnv⟩).2, isExitEvent e = false) ∧
       (runLoop sampleConfig "PEMCSR"
           (⟨SignOutcome.ok respOk, quietEnv⟩ :: [])).1 =
         (runAttempt sampleConfig "PEMCSR"
           ⟨SignOutcome.ok respOk, quietEnv⟩).2 ++
           (runLoop sampleConfig "PEMCSR" []).1)) :=
  ⟨by decide, by decide,
    onetime_exits_without_sleep_else_sleeps_expiry onetimeConfig "PEMCSR"
      quietEnv respOk [] (by decide),
    onetime_exits_without_sleep_else_sleeps_expiry sampleConfig "PEMCSR"
      quietEnv respOk [] (by decide)⟩

end CfsslSidekick
